import Mathlib

/-!
Shallow embedding of the fitness/nutrition MCP server
(sources: src/mcp_server.py, src/nutritionix.py, src/combined.py,
src/server/wger.py, src/utils.py).

Numeric values are modelled as rationals; Python float literals that occur
in the code (6.25, 0.5, 1.55, ...) are exact decimal fractions, so the
rational embedding is faithful on every value the claims touch.  HTTP
interaction is modelled by an explicit oracle mapping each outbound
request to an optional response: `none` stands for a transport-level
exception raised while issuing the request or decoding its body, and
`some (status, body)` for a decoded HTTP response.  Each tool returns the
list of requests it issued (its trace, in issue order) together with its
outcome.
-/

namespace FitnessServer

/-! ### Python numeric semantics -/

/-- Python round-half-to-even of a rational to an integer
(the rounding used by the built-in `round`). -/
def pyRoundInt (x : ℚ) : ℤ :=
  let f : ℤ := Int.floor x
  let r : ℚ := x - (f : ℚ)
  if r < 1/2 then f
  else if 1/2 < r then f + 1
  else if f % 2 = 0 then f else f + 1

/-- Python `round(x, n)` for nonnegative `n`. -/
def pyRound (x : ℚ) (n : ℕ) : ℚ :=
  (pyRoundInt (x * (10 : ℚ) ^ n) : ℚ) / (10 : ℚ) ^ n

/-- Python `int(x)`: truncation toward zero. -/
def pyInt (x : ℚ) : ℤ :=
  if 0 ≤ x then Int.floor x else - Int.floor (-x)

/-- Python slice `xs[:n]` for an integer bound `n`
(negative bounds count from the end, clipped at zero). -/
def pySliceTo {α : Type} (xs : List α) (n : ℤ) : List α :=
  if 0 ≤ n then xs.take n.toNat else xs.take (xs.length - (-n).toNat)

/-- Truthiness of an optional string, as Python sees an `os.getenv` result:
`None` and the empty string are falsy. -/
def pyTruthyStr : Option String → Bool
  | none => false
  | some s => if s = "" then false else true

/-- Status range for which `httpx.Response.raise_for_status` does not raise. -/
def is2xx (st : ℕ) : Bool := decide (200 ≤ st ∧ st < 300)

/-- Python str.lower, character by character (every key the source
lower-cases against is ASCII, where Char.toLower agrees with Python). -/
def pyLower (s : String) : String := String.mk (s.data.map Char.toLower)

/-- Association-list lookup mirroring `dict.get` on the small literal
dictionaries of the source (Python dicts preserve insertion order). -/
def lookupStr {β : Type} (key : String) : List (String × β) → Option β
  | [] => none
  | (k, v) :: rest => if k = key then some v else lookupStr key rest

/-! ### Nutritionix data model (src/nutritionix.py, src/mcp_server.py)

A decoded body of POST /natural/nutrients is reduced to its foods list;
a missing "foods" key and an empty list are observationally identical in
the code, which tests `"foods" not in data or not data["foods"]`. -/

/-- One food record of a /natural/nutrients response; every field the
tools read, each optional because the code reads it with `.get`. -/
structure NtrFood where
  food_name : Option String
  nf_calories : Option ℚ
  nf_protein : Option ℚ
  nf_total_carbohydrate : Option ℚ
  nf_total_fat : Option ℚ
  nf_dietary_fiber : Option ℚ
  nf_sodium : Option ℚ
  nf_sugars : Option ℚ
  serving_qty : Option ℚ
  serving_unit : Option String
deriving DecidableEq

/-- Oracle for the nutrients endpoint: query string to optional response. -/
abbrev NtrOracle := String → Option (ℕ × List NtrFood)

/-- Rendering of the numeric quantity inside the Python f-string.  Only
the non-default branch renders a number, and no claim inspects its
digits, so the rational prints via toString. -/
def qtyRepr (q : ℚ) : String := toString q

/-- Query building shared by get_food_nutrients and compare_foods:
a non-default quantity or unit prefixes the query. -/
def nutrientQuery (food_name : String) (quantity : ℚ) (unit : String) : String :=
  if quantity ≠ 1 ∨ unit ≠ "serving" then
    qtyRepr quantity ++ " " ++ unit ++ " " ++ food_name
  else food_name

/-- Outcome of get_food_nutrients. -/
inductive FoodNutrientsOutcome
  | transportError
  | apiError (status : ℕ)
  | notFoundSentinel (msg : String)
  | ok (food : NtrFood)
deriving DecidableEq

/-- Embedding of get_food_nutrients: one POST to /natural/nutrients,
raise_for_status, then first-food extraction or the not-found sentinel.
Returns the issued queries in order, paired with the outcome. -/
def get_food_nutrients (food_name : String) (quantity : ℚ) (unit : String)
    (oracle : NtrOracle) : List String × FoodNutrientsOutcome :=
  let query := nutrientQuery food_name quantity unit
  match oracle query with
  | none => ([query], .transportError)
  | some (st, foods) =>
    if is2xx st then
      match foods with
      | [] => ([query], .notFoundSentinel ("No nutritional information found for: " ++ query))
      | f :: _ => ([query], .ok f)
    else ([query], .apiError st)

/-- View of one side of a compare_foods report. -/
structure FoodSummary where
  name : Option String
  calories : ℚ
  protein : ℚ
  carbs : ℚ
  fat : ℚ
  fiber : ℚ
  sodium : ℚ
deriving DecidableEq

/-- The six signed per-field differences of a compare_foods report. -/
structure FoodDiffs where
  calories : ℚ
  protein : ℚ
  carbs : ℚ
  fat : ℚ
  fiber : ℚ
  sodium : ℚ
deriving DecidableEq

/-- Per-food block of the comparison, each field defaulted to 0. -/
def foodSummary (f : NtrFood) : FoodSummary :=
  { name := f.food_name
    calories := f.nf_calories.getD 0
    protein := f.nf_protein.getD 0
    carbs := f.nf_total_carbohydrate.getD 0
    fat := f.nf_total_fat.getD 0
    fiber := f.nf_dietary_fiber.getD 0
    sodium := f.nf_sodium.getD 0 }

/-- The differences block: food2 value minus food1 value per field. -/
def foodDiffs (f1 f2 : NtrFood) : FoodDiffs :=
  { calories := f2.nf_calories.getD 0 - f1.nf_calories.getD 0
    protein := f2.nf_protein.getD 0 - f1.nf_protein.getD 0
    carbs := f2.nf_total_carbohydrate.getD 0 - f1.nf_total_carbohydrate.getD 0
    fat := f2.nf_total_fat.getD 0 - f1.nf_total_fat.getD 0
    fiber := f2.nf_dietary_fiber.getD 0 - f1.nf_dietary_fiber.getD 0
    sodium := f2.nf_sodium.getD 0 - f1.nf_sodium.getD 0 }

/-- Comparison document of compare_foods. -/
structure Comparison where
  comparison_query : String
  food1 : FoodSummary
  food2 : FoodSummary
  differences : FoodDiffs
deriving DecidableEq

/-- Outcome of compare_foods. -/
inductive CompareOutcome
  | transportError
  | apiError (status : ℕ)
  | notFoundSentinel (msg : String)
  | ok (c : Comparison)
deriving DecidableEq

/-- Embedding of compare_foods.  Faithful to the source statement order:
both POSTs are awaited first, and only then are the two
raise_for_status calls evaluated, first response first. -/
def compare_foods (food1 food2 : String) (quantity : ℚ) (unit : String)
    (oracle : NtrOracle) : List String × CompareOutcome :=
  let query1 := nutrientQuery food1 quantity unit
  let query2 := nutrientQuery food2 quantity unit
  match oracle query1 with
  | none => ([query1], .transportError)
  | some (st1, foods1) =>
    match oracle query2 with
    | none => ([query1, query2], .transportError)
    | some (st2, foods2) =>
      if is2xx st1 then
        if is2xx st2 then
          match foods1, foods2 with
          | f1 :: _, f2 :: _ =>
            ([query1, query2],
             .ok { comparison_query := query1 ++ " vs " ++ query2
                   food1 := foodSummary f1
                   food2 := foodSummary f2
                   differences := foodDiffs f1 f2 })
          | _, _ =>
            ([query1, query2],
             .notFoundSentinel "Could not find nutritional information for one or both foods")
        else ([query1, query2], .apiError st2)
      else ([query1, query2], .apiError st1)

/-! ### analyze_meal -/

/-- Accumulated meal totals, mirroring the totals dict of the source. -/
structure MealTotals where
  calories : ℚ
  protein : ℚ
  carbs : ℚ
  fat : ℚ
  fiber : ℚ
  sodium : ℚ
  sugar : ℚ
deriving DecidableEq

/-- Totals dict initialised to zero. -/
def emptyTotals : MealTotals := ⟨0, 0, 0, 0, 0, 0, 0⟩

/-- One iteration of the accumulation loop over the foods. -/
def addFood (t : MealTotals) (f : NtrFood) : MealTotals :=
  { calories := t.calories + f.nf_calories.getD 0
    protein := t.protein + f.nf_protein.getD 0
    carbs := t.carbs + f.nf_total_carbohydrate.getD 0
    fat := t.fat + f.nf_total_fat.getD 0
    fiber := t.fiber + f.nf_dietary_fiber.getD 0
    sodium := t.sodium + f.nf_sodium.getD 0
    sugar := t.sugar + f.nf_sugars.getD 0 }

/-- The accumulation loop. -/
def mealTotals (foods : List NtrFood) : MealTotals := foods.foldl addFood emptyTotals

/-- Percent-of-calories record. -/
structure MacroPercentages where
  protein_percent : ℚ
  carbs_percent : ℚ
  fat_percent : ℚ
deriving DecidableEq

/-- The percentage block of analyze_meal: populated only when total
calories are strictly positive, otherwise the mapping stays empty
(modelled as none). -/
def macroPercentagesOf (t : MealTotals) : Option MacroPercentages :=
  if 0 < t.calories then
    some { protein_percent := pyRound (t.protein * 4 / t.calories * 100) 1
           carbs_percent := pyRound (t.carbs * 4 / t.calories * 100) 1
           fat_percent := pyRound (t.fat * 9 / t.calories * 100) 1 }
  else none

/-- Result document of analyze_meal (total_nutrition fields rounded to
one decimal as in the source). -/
structure MealAnalysis where
  meal_name : String
  foods_analyzed : ℕ
  total_calories : ℚ
  total_protein : ℚ
  total_carbs : ℚ
  total_fat : ℚ
  total_fiber : ℚ
  total_sodium : ℚ
  total_sugar : ℚ
  macronutrient_distribution : Option MacroPercentages
deriving DecidableEq

/-- Shaping of a successful analyze_meal response. -/
def mealAnalysisOfFoods (meal_name : String) (foods : List NtrFood) : MealAnalysis :=
  let t := mealTotals foods
  { meal_name := meal_name
    foods_analyzed := foods.length
    total_calories := pyRound t.calories 1
    total_protein := pyRound t.protein 1
    total_carbs := pyRound t.carbs 1
    total_fat := pyRound t.fat 1
    total_fiber := pyRound t.fiber 1
    total_sodium := pyRound t.sodium 1
    total_sugar := pyRound t.sugar 1
    macronutrient_distribution := macroPercentagesOf t }

/-- Outcome of analyze_meal. -/
inductive MealOutcome
  | transportError
  | apiError (status : ℕ)
  | notFoundSentinel (msg : String)
  | ok (a : MealAnalysis)
deriving DecidableEq

/-- Embedding of analyze_meal: join the foods list into one query,
one POST, raise_for_status, then the accumulation and shaping. -/
def analyze_meal (foods_list : List String) (meal_name : String)
    (oracle : NtrOracle) : List String × MealOutcome :=
  let meal_query := String.intercalate ", " foods_list
  match oracle meal_query with
  | none => ([meal_query], .transportError)
  | some (st, foods) =>
    if is2xx st then
      match foods with
      | [] => ([meal_query], .notFoundSentinel ("No nutritional information found for meal: " ++ meal_query))
      | _ => ([meal_query], .ok (mealAnalysisOfFoods meal_name foods))
    else ([meal_query], .apiError st)

/-! ### calculate_daily_needs (pure arithmetic, no upstream call) -/

/-- Fixed activity-multiplier table. -/
def activity_multipliers : List (String × ℚ) :=
  [("sedentary", 1.2), ("light", 1.375), ("moderate", 1.55),
   ("active", 1.725), ("very_active", 1.9)]

/-- Mifflin-St Jeor BMR as computed inside calculate_daily_needs. -/
def dailyNeedsBMR (gender : String) (weight_kg height_cm : ℚ) (age : ℤ) : ℚ :=
  if pyLower gender = "male" then
    10 * weight_kg + 6.25 * height_cm - 5 * (age : ℚ) + 5
  else
    10 * weight_kg + 6.25 * height_cm - 5 * (age : ℚ) - 161

/-- Result document of calculate_daily_needs, numeric fields carrying
the rounding the source applies before serialisation. -/
structure DailyNeeds where
  age : ℤ
  gender : String
  weight_kg : ℚ
  height_cm : ℚ
  activity_level : String
  bmr : ℚ
  daily_caloric_needs : ℚ
  protein_grams : ℚ
  carb_grams : ℚ
  fat_grams : ℚ
  fiber_grams : ℚ
  water_liters : ℚ
  sodium_max_mg : ℚ
  sugar_max_g : ℚ
deriving DecidableEq

/-- Embedding of calculate_daily_needs. -/
def calculate_daily_needs (age : ℤ) (gender : String) (weight_kg height_cm : ℚ)
    (activity_level : String) : DailyNeeds :=
  let bmr := dailyNeedsBMR gender weight_kg height_cm age
  let multiplier := (lookupStr (pyLower activity_level) activity_multipliers).getD 1.55
  let daily_calories := bmr * multiplier
  let protein_grams := weight_kg * 0.8
  let fat_calories := daily_calories * 0.25
  let fat_grams := fat_calories / 9
  let carb_calories := daily_calories - protein_grams * 4 - fat_grams * 9
  let carb_grams := carb_calories / 4
  let fiber_grams : ℚ := if pyLower gender = "female" then 25 else 38
  { age := age, gender := gender, weight_kg := weight_kg, height_cm := height_cm
    activity_level := activity_level
    bmr := pyRound bmr 1
    daily_caloric_needs := pyRound daily_calories 0
    protein_grams := pyRound protein_grams 1
    carb_grams := pyRound carb_grams 1
    fat_grams := pyRound fat_grams 1
    fiber_grams := fiber_grams
    water_liters := pyRound (weight_kg * 35 / 1000) 1
    sodium_max_mg := 2300
    sugar_max_g := pyRound (daily_calories * 0.1 / 4) 1 }

/-! ### WGER data model (src/server/wger.py, src/mcp_server.py) -/

/-- One GET /exercise/ request with its query parameters. -/
structure WgerReq where
  muscles : ℤ
  limit : ℤ
  language : ℕ
deriving DecidableEq

/-- One exercise record of an /exercise/ list response. -/
structure WgerExercise where
  id : Option ℤ
  name : Option String
  description : Option String
  muscles : List ℤ
  muscles_secondary : List ℤ
  equipment : List ℤ
deriving DecidableEq

/-- Oracle for the WGER exercise endpoint. -/
abbrev WgerOracle := WgerReq → Option (ℕ × List WgerExercise)

/-- HTML paragraph-tag stripping applied to descriptions. -/
def stripPTags (s : String) : String :=
  (s.replace "<p>" "").replace "</p>" ""

/-- Shaped exercise record returned by get_exercises_by_muscle. -/
structure ExerciseInfo where
  id : Option ℤ
  name : Option String
  description : String
  primary_muscles : List ℤ
  secondary_muscles : List ℤ
  equipment : List ℤ
deriving DecidableEq

/-- Per-record shaping of get_exercises_by_muscle. -/
def exerciseInfoOf (e : WgerExercise) : ExerciseInfo :=
  { id := e.id
    name := e.name
    description := stripPTags (e.description.getD "")
    primary_muscles := e.muscles
    secondary_muscles := e.muscles_secondary
    equipment := e.equipment }

/-- Fixed muscle-group-to-ID table, in source insertion order. -/
def muscle_mapping : List (String × List ℤ) :=
  [("chest", [4]), ("back", [12, 13]), ("shoulders", [2, 3]), ("arms", [1, 5, 8]),
   ("legs", [10, 11, 7, 9]), ("abs", [14, 6]), ("core", [14, 6])]

/-- The user-facing invalid-group message, joined from the table keys. -/
def invalidMuscleGroupMsg : String :=
  "Invalid muscle group. Available groups: " ++
    String.intercalate ", " (muscle_mapping.map Prod.fst)

/-- Failure of the per-ID fetch loop. -/
inductive MuscleFetchErr
  | transport
  | status (st : ℕ)
deriving DecidableEq

/-- Request of one per-ID list call. -/
def muscleReq (muscle_id per_limit : ℤ) : WgerReq :=
  { muscles := muscle_id, limit := per_limit, language := 2 }

/-- The per-ID loop of get_exercises_by_muscle: one list call per muscle
ID, raise_for_status after each, results concatenated in order.  A raise
aborts the loop (the remaining IDs are never requested). -/
def fetchMuscleLoop (oracle : WgerOracle) (per_limit : ℤ) :
    List ℤ → List WgerReq × Except MuscleFetchErr (List ExerciseInfo)
  | [] => ([], .ok [])
  | id :: rest =>
    let req := muscleReq id per_limit
    match oracle req with
    | none => ([req], .error .transport)
    | some (st, results) =>
      if is2xx st then
        match fetchMuscleLoop oracle per_limit rest with
        | (tr, .ok xs) => (req :: tr, .ok (results.map exerciseInfoOf ++ xs))
        | (tr, .error e) => (req :: tr, .error e)
      else ([req], .error (.status st))

/-- Outcome of get_exercises_by_muscle (total_exercises is the length
before the final truncation, as in the source). -/
inductive MuscleOutcome
  | invalidGroup (msg : String)
  | transportError
  | apiError (status : ℕ)
  | ok (muscle_group : String) (total_exercises : ℕ) (exercises : List ExerciseInfo)
deriving DecidableEq

/-- Embedding of get_exercises_by_muscle. -/
def get_exercises_by_muscle (muscle_group : String) (limit : ℤ)
    (oracle : WgerOracle) : List WgerReq × MuscleOutcome :=
  let muscle_ids := (lookupStr (pyLower muscle_group) muscle_mapping).getD []
  if muscle_ids.isEmpty then
    ([], .invalidGroup invalidMuscleGroupMsg)
  else
    let per_limit := limit.fdiv (muscle_ids.length : ℤ)
    match fetchMuscleLoop oracle per_limit muscle_ids with
    | (tr, .ok exercises) =>
      (tr, .ok muscle_group exercises.length (pySliceTo exercises limit))
    | (tr, .error .transport) => (tr, .transportError)
    | (tr, .error (.status st)) => (tr, .apiError st)

/-! ### calculate_exercise_calories (src/combined.py, src/mcp_server.py) -/

/-- POST /natural/exercise body: the query and an optional weight hint
(the source only attaches weight_kg when it is truthy, so 0 is omitted). -/
structure ExerciseApiReq where
  query : String
  weight_kg : Option ℚ
deriving DecidableEq

/-- One entry of a /natural/exercise response. -/
structure ExerciseEntry where
  name : Option String
  duration_min : Option ℚ
  met : Option ℚ
  nf_calories : Option ℚ
  user_weight_kg : Option ℚ
deriving DecidableEq

/-- Oracle for the natural-language exercise endpoint. -/
abbrev ExerciseOracle := ExerciseApiReq → Option (ℕ × List ExerciseEntry)

/-- Query building of calculate_exercise_calories: a non-default
duration prefixes the query. -/
def exerciseQuery (exercise_name : String) (duration_min : ℤ) : String :=
  if duration_min ≠ 30 then
    toString duration_min ++ " minutes " ++ exercise_name
  else exercise_name

/-- Outcome of calculate_exercise_calories. -/
inductive ExerciseCaloriesOutcome
  | transportError
  | apiError (status : ℕ)
  | notFoundSentinel (msg : String)
  | ok (total_calories_burned : ℚ) (entries : List ExerciseEntry)
deriving DecidableEq

/-- Embedding of calculate_exercise_calories. -/
def calculate_exercise_calories (exercise_name : String) (duration_min : ℤ)
    (weight_kg : ℚ) (oracle : ExerciseOracle) :
    List ExerciseApiReq × ExerciseCaloriesOutcome :=
  let query := exerciseQuery exercise_name duration_min
  let payload : ExerciseApiReq :=
    { query := query, weight_kg := if weight_kg = 0 then none else some weight_kg }
  match oracle payload with
  | none => ([payload], .transportError)
  | some (st, entries) =>
    if is2xx st then
      match entries with
      | [] => ([payload], .notFoundSentinel ("No exercise information found for: " ++ query))
      | _ => ([payload], .ok ((entries.map (fun e => e.nf_calories.getD 0)).sum) entries)
    else ([payload], .apiError st)

/-! ### create_fitness_plan (src/combined.py, src/mcp_server.py) -/

/-- Fixed goal-to-calorie-delta table. -/
def goal_adjustments : List (String × ℚ) :=
  [("lose_weight", -500), ("gain_muscle", 300), ("maintain", 0),
   ("athletic_performance", 200)]

/-- Equipment preference table.  The source computes equipment_type from
it but never uses the value; it is recorded here for completeness and is
likewise unused. -/
def plan_equipment_mapping : List (String × String) :=
  [("gym", "barbell"), ("home", "dumbbell"), ("bodyweight", "bodyweight"),
   ("minimal", "bodyweight")]

/-- Mifflin-St Jeor BMR as recomputed inside create_fitness_plan (the
source duplicates the formula verbatim at this second site). -/
def fitnessPlanBMR (gender : String) (weight_kg height_cm : ℚ) (age : ℤ) : ℚ :=
  if pyLower gender = "male" then
    10 * weight_kg + 6.25 * height_cm - 5 * (age : ℚ) + 5
  else
    10 * weight_kg + 6.25 * height_cm - 5 * (age : ℚ) - 161

/-- The muscle groups the exercise-fetch block iterates over, in order. -/
def plan_muscle_groups : List String := ["chest", "back", "legs", "shoulders", "arms"]

/-- The inline muscle-ID dictionary of the fetch block. -/
def plan_muscle_ids : List (String × List ℤ) :=
  [("chest", [4]), ("back", [12, 13]), ("legs", [10, 11, 7, 9]),
   ("shoulders", [2, 3]), ("arms", [1, 5, 8])]

/-- Exercise entry of the plan workout structure. -/
structure PlanExercise where
  name : Option String
  description : String
deriving DecidableEq

/-- Shaping inside the fetch block: stripped description truncated to
100 characters with an ellipsis appended. -/
def planExerciseOf (e : WgerExercise) : PlanExercise :=
  { name := e.name
    description := (stripPTags (e.description.getD "")).take 100 ++ "..." }

/-- The exercise-fetch block of create_fitness_plan: one list call per
muscle group using the first mapped ID with limit 3.  A transport-level
exception anywhere in the block aborts it (error); a non-200 status for
one group merely skips that group and the loop continues. -/
def fetchPlanExercises (oracle : WgerOracle) :
    List String → Except Unit (List (String × List PlanExercise))
  | [] => .ok []
  | m :: rest =>
    match (lookupStr m plan_muscle_ids).getD [] with
    | [] => fetchPlanExercises oracle rest
    | id :: _ =>
      match oracle { muscles := id, limit := 3, language := 2 } with
      | none => .error ()
      | some (st, results) =>
        match fetchPlanExercises oracle rest with
        | .error e => .error e
        | .ok s =>
          .ok (if st = 200 then (m, (results.take 3).map planExerciseOf) :: s else s)

/-- The static fallback workout structure substituted when the fetch
block raises. -/
def fallback_workout_structure : List (String × List PlanExercise) :=
  [("chest", [⟨some "Push-ups", "Classic bodyweight chest exercise"⟩]),
   ("back", [⟨some "Pull-ups", "Upper body pulling exercise"⟩]),
   ("legs", [⟨some "Squats", "Fundamental lower body exercise"⟩]),
   ("shoulders", [⟨some "Pike Push-ups", "Bodyweight shoulder exercise"⟩]),
   ("arms", [⟨some "Tricep Dips", "Bodyweight arm exercise"⟩])]

/-- One day of the weekly split. -/
structure SplitDay where
  focus : String
  exercises : List PlanExercise
deriving DecidableEq

/-- Weekly split building, with the slicing of the source
(arms[:2] and arms[1:] on the four-day split). -/
def weeklySplit (workout_days : ℤ) (ws : List (String × List PlanExercise)) :
    List (String × SplitDay) :=
  let get := fun m => (lookupStr m ws).getD []
  if 4 ≤ workout_days then
    [("day_1", ⟨"Chest & Triceps", get "chest" ++ (get "arms").take 2⟩),
     ("day_2", ⟨"Back & Biceps", get "back" ++ (get "arms").drop 1⟩),
     ("day_3", ⟨"Legs", get "legs"⟩),
     ("day_4", ⟨"Shoulders & Core", get "shoulders"⟩)] ++
    (if 5 ≤ workout_days then
      [("day_5", ⟨"Full Body / Cardio",
        [⟨some "30min cardio", "Choose your preferred cardio activity"⟩]⟩)]
     else [])
  else
    [("day_1", ⟨"Upper Body", get "chest" ++ get "back"⟩),
     ("day_2", ⟨"Lower Body", get "legs"⟩),
     ("day_3", ⟨"Full Body", get "shoulders" ++ get "arms"⟩)]

/-- Fitness-plan document, numeric fields carrying the rounding the
source applies before serialisation. -/
structure FitnessPlan where
  age : ℤ
  gender : String
  weight_kg : ℚ
  height_cm : ℚ
  bmr : ℚ
  goal : String
  activity_level : String
  maintenance_calories : ℚ
  target_calories : ℚ
  calorie_adjustment : ℚ
  protein_grams : ℚ
  carb_grams : ℚ
  fat_grams : ℚ
  hydration_liters : ℚ
  workout_days : ℤ
  equipment : String
  weekly_split : List (String × SplitDay)
deriving DecidableEq

/-- Embedding of create_fitness_plan.  The Except channel is the outer
try/except of the source, which returns an error string on an uncaught
exception; every failure source in scope (the exercise-fetch block) is
caught inside, so the embedding always produces ok. -/
def create_fitness_plan (age : ℤ) (gender : String) (weight_kg height_cm : ℚ)
    (goal : String) (activity_level : String) (workout_days : ℤ)
    (equipment : String) (oracle : WgerOracle) : Except String FitnessPlan :=
  let bmr := fitnessPlanBMR gender weight_kg height_cm age
  let multiplier := (lookupStr (pyLower activity_level) activity_multipliers).getD 1.55
  let maintenance_calories := bmr * multiplier
  let adjustment := (lookupStr goal goal_adjustments).getD 0
  let target_calories := maintenance_calories + adjustment
  let protein_per_kg : ℚ :=
    if goal = "gain_muscle" then 1.6 else if goal = "lose_weight" then 1.2 else 1
  let protein_grams := weight_kg * protein_per_kg
  let fat_grams := target_calories * 0.25 / 9
  let carb_grams := (target_calories - protein_grams * 4 - fat_grams * 9) / 4
  let workout_structure :=
    match fetchPlanExercises oracle plan_muscle_groups with
    | .ok s => s
    | .error _ => fallback_workout_structure
  .ok { age := age, gender := gender, weight_kg := weight_kg, height_cm := height_cm
        bmr := pyRound bmr 0
        goal := goal, activity_level := activity_level
        maintenance_calories := pyRound maintenance_calories 0
        target_calories := pyRound target_calories 0
        calorie_adjustment := adjustment
        protein_grams := pyRound protein_grams 1
        carb_grams := pyRound carb_grams 1
        fat_grams := pyRound fat_grams 1
        hydration_liters := pyRound (weight_kg * 35 / 1000) 1
        workout_days := workout_days, equipment := equipment
        weekly_split := weeklySplit workout_days workout_structure }

/-! ### track_weekly_progress (pure arithmetic) -/

/-- Progress document of track_weekly_progress.  The target_date field
of the source is datetime.now() plus weeks_to_goal weeks; the wall-clock
base is outside the embedding, so the field is modelled by the offset:
some weeks when a projection is emitted, none for the fixed
"Target achieved" sentinel. -/
structure ProgressSummary where
  current_weight_kg : ℚ
  target_weight_kg : ℚ
  weight_difference_kg : ℚ
  goal : String
  progress_status : String
  workouts_completed : ℤ
  workouts_recommended : ℤ
  completion_percentage : ℚ
  workout_status : String
  estimated_weeks_to_goal : ℤ
  target_date_weeks_from_now : Option ℚ
  recommendations : List String
  next_week_weight_target : ℚ
deriving DecidableEq

/-- Embedding of track_weekly_progress. -/
def track_weekly_progress (current_weight target_weight : ℚ)
    (weekly_workouts_completed : ℤ) (goal : String) : ProgressSummary :=
  let weight_difference := current_weight - target_weight
  let ideal_weekly_loss : ℚ := 0.5
  let ideal_weekly_gain : ℚ := 0.25
  let progress_status :=
    if goal = "lose_weight" then
      (if 0 < |weight_difference| then "On track" else "Target reached")
    else if goal = "gain_muscle" then
      (if weight_difference < 0 then "On track" else "Target reached")
    else
      (if |weight_difference| ≤ 1 then "Maintaining" else "Adjustment needed")
  let weeks_to_goal : ℚ :=
    if goal = "lose_weight" then
      (if 0 < weight_difference then
        max 1 (pyRound (weight_difference / ideal_weekly_loss) 0) else 0)
    else if goal = "gain_muscle" then
      (if weight_difference < 0 then
        max 1 (pyRound (|weight_difference| / ideal_weekly_gain) 0) else 0)
    else 0
  let recommended_workouts : ℤ := 4
  let workout_progress := ((weekly_workouts_completed : ℚ) / (recommended_workouts : ℚ)) * 100
  let workout_status :=
    if 100 ≤ workout_progress then "Excellent - exceeded target"
    else if 75 ≤ workout_progress then "Good - on track"
    else if 50 ≤ workout_progress then "Fair - room for improvement"
    else "Poor - need to increase frequency"
  let recommendations :=
    (if weekly_workouts_completed < recommended_workouts then
      ["Increase workout frequency to reach your goals faster"] else []) ++
    (if goal = "lose_weight" ∧ 0 < weight_difference then
      ["Consider reducing daily calories by 100-200 or increasing cardio"]
     else if goal = "gain_muscle" ∧ weight_difference < -1 then
      ["You may be gaining weight too quickly - ensure it\x27s muscle, not fat"]
     else []) ++
    (if workout_progress < 75 then
      ["Try to maintain consistency with your workout schedule"] else [])
  { current_weight_kg := current_weight
    target_weight_kg := target_weight
    weight_difference_kg := pyRound weight_difference 1
    goal := goal
    progress_status := progress_status
    workouts_completed := weekly_workouts_completed
    workouts_recommended := recommended_workouts
    completion_percentage := pyRound workout_progress 1
    workout_status := workout_status
    estimated_weeks_to_goal := if 0 < weeks_to_goal then pyInt weeks_to_goal else 0
    target_date_weeks_from_now := if 0 < weeks_to_goal then some weeks_to_goal else none
    recommendations := recommendations
    next_week_weight_target :=
      if goal = "lose_weight" then current_weight - ideal_weekly_loss
      else if goal = "gain_muscle" then current_weight + ideal_weekly_gain
      else current_weight }

/-! ### Startup credential check (src/mcp_server.py module level) -/

/-- The ValueError message raised when a credential is missing. -/
def missingCredentialsMsg : String :=
  "Missing Nutritionix API credentials. Please set NUTRITIONIX_APP_ID and NUTRITIONIX_APP_KEY environment variables."

/-- Module-level credential check: getenv results are optional strings,
and Python truthiness rejects both None and the empty string. -/
def init_nutritionix_credentials (app_id app_key : Option String) :
    Except String Unit :=
  if !pyTruthyStr app_id || !pyTruthyStr app_key then
    .error missingCredentialsMsg
  else .ok ()

/-- The tools the module registers once it is past the credential check. -/
def server_tool_names : List String :=
  ["search_foods", "get_food_nutrients", "compare_foods", "analyze_meal",
   "calculate_daily_needs", "search_exercises", "get_exercises_by_muscle",
   "get_equipment_exercises", "get_workout_templates",
   "calculate_exercise_calories", "create_fitness_plan",
   "suggest_pre_post_workout_meals", "track_weekly_progress"]

/-- Server startup: the credential check runs at import time, before any
tool is registered, so a failure serves no tool at all. -/
def start_server (app_id app_key : Option String) :
    Except String (List String) :=
  match init_nutritionix_credentials app_id app_key with
  | .error e => .error e
  | .ok _ => .ok server_tool_names

/-! ## Helper lemmas -/

/-- get_food_nutrients issues exactly one request, the built query. -/
theorem get_food_nutrients_trace (food_name : String) (q : ℚ) (u : String)
    (oracle : NtrOracle) :
    (get_food_nutrients food_name q u oracle).1 = [nutrientQuery food_name q u] := by
  rcases h : oracle (nutrientQuery food_name q u) with _ | ⟨st, foods⟩
  · simp [get_food_nutrients, h]
  · simp only [get_food_nutrients, h]
    split
    · cases foods <;> simp
    · simp

/-- calculate_exercise_calories issues exactly one request, carrying the
built query. -/
theorem calculate_exercise_calories_trace (exercise_name : String)
    (duration_min : ℤ) (weight_kg : ℚ) (oracle : ExerciseOracle) :
    ((calculate_exercise_calories exercise_name duration_min weight_kg oracle).1.map
      ExerciseApiReq.query) = [exerciseQuery exercise_name duration_min] := by
  rcases h : oracle ⟨exerciseQuery exercise_name duration_min,
      if weight_kg = 0 then none else some weight_kg⟩ with _ | ⟨st, entries⟩
  · simp [calculate_exercise_calories, h]
  · simp only [calculate_exercise_calories, h]
    split
    · cases entries <;> simp
    · simp

/-! ## Claims -/

/-- C1: for every call to calculate_daily_needs or create_fitness_plan,
a gender that lower-cases to "male" yields BMR
10*weight + 6.25*height - 5*age + 5, and every other gender string
yields 10*weight + 6.25*height - 5*age - 161; the documents surface
these values rounded to one decimal (daily needs) and to an integer
(fitness plan). -/
theorem bmr_mifflin_st_jeor (gender : String) (weight_kg height_cm : ℚ)
    (age : ℤ) (activity_level goal : String) (workout_days : ℤ)
    (equipment : String) (oracle : WgerOracle) :
    dailyNeedsBMR gender weight_kg height_cm age =
      (if pyLower gender = "male" then
        10 * weight_kg + 6.25 * height_cm - 5 * (age : ℚ) + 5
       else 10 * weight_kg + 6.25 * height_cm - 5 * (age : ℚ) - 161)
  ∧ fitnessPlanBMR gender weight_kg height_cm age =
      (if pyLower gender = "male" then
        10 * weight_kg + 6.25 * height_cm - 5 * (age : ℚ) + 5
       else 10 * weight_kg + 6.25 * height_cm - 5 * (age : ℚ) - 161)
  ∧ (calculate_daily_needs age gender weight_kg height_cm activity_level).bmr =
      pyRound (if pyLower gender = "male" then
        10 * weight_kg + 6.25 * height_cm - 5 * (age : ℚ) + 5
       else 10 * weight_kg + 6.25 * height_cm - 5 * (age : ℚ) - 161) 1
  ∧ ∃ p, create_fitness_plan age gender weight_kg height_cm goal activity_level
        workout_days equipment oracle = .ok p ∧
      p.bmr = pyRound (if pyLower gender = "male" then
        10 * weight_kg + 6.25 * height_cm - 5 * (age : ℚ) + 5
       else 10 * weight_kg + 6.25 * height_cm - 5 * (age : ℚ) - 161) 0 := by
  refine ⟨rfl, rfl, ?_, ?_⟩
  · simp [calculate_daily_needs, dailyNeedsBMR]
  · exact ⟨_, rfl, by simp [create_fitness_plan, fitnessPlanBMR]⟩

/-- C8: with the declared defaults for every optional parameter the
query-prefixing tools send the bare name upstream: get_food_nutrients
with quantity 1.0 and unit "serving" sends exactly food_name, and
calculate_exercise_calories with duration 30 sends exactly
exercise_name, with no prefix. -/
theorem default_parameters_send_bare_query (food_name exercise_name : String)
    (o1 : NtrOracle) (weight_kg : ℚ) (o2 : ExerciseOracle) :
    nutrientQuery food_name 1 "serving" = food_name
  ∧ (get_food_nutrients food_name 1 "serving" o1).1 = [food_name]
  ∧ exerciseQuery exercise_name 30 = exercise_name
  ∧ ((calculate_exercise_calories exercise_name 30 weight_kg o2).1.map
      ExerciseApiReq.query) = [exercise_name] := by
  have hq : nutrientQuery food_name 1 "serving" = food_name := by
    simp [nutrientQuery]
  have he : exerciseQuery exercise_name 30 = exercise_name := by
    simp [exerciseQuery]
  refine ⟨hq, ?_, he, ?_⟩
  · rw [get_food_nutrients_trace, hq]
  · rw [calculate_exercise_calories_trace, he]

/-- C2 (counterexample): the claim asserts the frequency-increase note
is absent from the recommendations of
track_weekly_progress(78.5, 75, 3, "lose_weight"); the code appends it
whenever completed workouts are below the recommended 4, and 3 < 4, so
the note is present. -/
theorem track_progress_frequency_note_present :
    "Increase workout frequency to reach your goals faster" ∈
      (track_weekly_progress 78.5 75 3 "lose_weight").recommendations := by
  norm_num [track_weekly_progress]

/-- C2 (amended): track_weekly_progress(78.5, 75, 3, "lose_weight")
reports weight_difference 3.5, weeks_to_goal 7 (= max(1, round(3.5/0.5))),
completion_percentage 75.0 with workout status "Good - on track", and its
recommendations are exactly the frequency-increase note (present since
3 < 4) followed by the calorie/cardio-adjustment note. -/
theorem track_progress_example_report :
    (track_weekly_progress 78.5 75 3 "lose_weight").weight_difference_kg = 3.5
  ∧ (track_weekly_progress 78.5 75 3 "lose_weight").estimated_weeks_to_goal = 7
  ∧ max (1 : ℚ) (pyRound ((78.5 - 75 : ℚ) / 0.5) 0) = 7
  ∧ (track_weekly_progress 78.5 75 3 "lose_weight").completion_percentage = 75
  ∧ (track_weekly_progress 78.5 75 3 "lose_weight").workout_status = "Good - on track"
  ∧ (track_weekly_progress 78.5 75 3 "lose_weight").recommendations =
      ["Increase workout frequency to reach your goals faster",
       "Consider reducing daily calories by 100-200 or increasing cardio"] := by
  refine ⟨?_, ?_, ?_, ?_, ?_, ?_⟩ <;>
    norm_num [track_weekly_progress, pyRound, pyRoundInt, pyInt, max_def]

/-- C3: whenever both nutrient lookups succeed with a found food,
compare_foods reports, for each of the six tracked fields, the signed
difference food2 minus food1, each value defaulting to 0 when absent. -/
theorem compare_foods_signed_differences (food1 food2 : String) (quantity : ℚ)
    (unit : String) (oracle : NtrOracle) (st1 st2 : ℕ) (f1 f2 : NtrFood)
    (r1 r2 : List NtrFood)
    (h1 : oracle (nutrientQuery food1 quantity unit) = some (st1, f1 :: r1))
    (h2 : oracle (nutrientQuery food2 quantity unit) = some (st2, f2 :: r2))
    (hs1 : is2xx st1 = true) (hs2 : is2xx st2 = true) :
    ∃ c, (compare_foods food1 food2 quantity unit oracle).2 = .ok c ∧
      c.differences =
        { calories := f2.nf_calories.getD 0 - f1.nf_calories.getD 0
          protein := f2.nf_protein.getD 0 - f1.nf_protein.getD 0
          carbs := f2.nf_total_carbohydrate.getD 0 - f1.nf_total_carbohydrate.getD 0
          fat := f2.nf_total_fat.getD 0 - f1.nf_total_fat.getD 0
          fiber := f2.nf_dietary_fiber.getD 0 - f1.nf_dietary_fiber.getD 0
          sodium := f2.nf_sodium.getD 0 - f1.nf_sodium.getD 0 } := by
  have hout : (compare_foods food1 food2 quantity unit oracle).2 =
      .ok { comparison_query :=
              nutrientQuery food1 quantity unit ++ " vs " ++ nutrientQuery food2 quantity unit
            food1 := foodSummary f1
            food2 := foodSummary f2
            differences := foodDiffs f1 f2 } := by
    simp [compare_foods, h1, h2, hs1, hs2]
  exact ⟨_, hout, rfl⟩

/-- Witness food for the nutrient-tool claims. -/
def wFoodApple : NtrFood :=
  { food_name := some "apple", nf_calories := some 95, nf_protein := some 0.5
    nf_total_carbohydrate := some 25, nf_total_fat := some 0.3
    nf_dietary_fiber := none, nf_sodium := some 2, nf_sugars := some 19
    serving_qty := some 1, serving_unit := some "medium" }

/-- Second witness food. -/
def wFoodBanana : NtrFood :=
  { food_name := some "banana", nf_calories := some 105, nf_protein := some 1.3
    nf_total_carbohydrate := some 27, nf_total_fat := some 0.4
    nf_dietary_fiber := some 3.1, nf_sodium := none, nf_sugars := some 14
    serving_qty := some 1, serving_unit := some "medium" }

/-- Witness oracle answering both lookups with status 200 and one food. -/
def wOracleBoth : NtrOracle := fun q =>
  if q = "apple" then some (200, [wFoodApple]) else some (200, [wFoodBanana])

/-- C3 witness: the theorem applied to a concrete oracle. -/
theorem compare_foods_signed_differences_witness :
    ∃ c, (compare_foods "apple" "banana" 1 "serving" wOracleBoth).2 = .ok c ∧
      c.differences =
        { calories := wFoodBanana.nf_calories.getD 0 - wFoodApple.nf_calories.getD 0
          protein := wFoodBanana.nf_protein.getD 0 - wFoodApple.nf_protein.getD 0
          carbs := wFoodBanana.nf_total_carbohydrate.getD 0 - wFoodApple.nf_total_carbohydrate.getD 0
          fat := wFoodBanana.nf_total_fat.getD 0 - wFoodApple.nf_total_fat.getD 0
          fiber := wFoodBanana.nf_dietary_fiber.getD 0 - wFoodApple.nf_dietary_fiber.getD 0
          sodium := wFoodBanana.nf_sodium.getD 0 - wFoodApple.nf_sodium.getD 0 } :=
  compare_foods_signed_differences "apple" "banana" 1 "serving" wOracleBoth
    200 200 wFoodApple wFoodBanana [] []
    (by simp [wOracleBoth, nutrientQuery]) (by simp [wOracleBoth, nutrientQuery])
    rfl rfl

/-- The accumulation loop of analyze_meal computes, in every field, the
initial value plus the per-field sum over the foods. -/
theorem foldl_addFood_eq (foods : List NtrFood) : ∀ t : MealTotals,
    foods.foldl addFood t =
      { calories := t.calories + (foods.map (fun f => f.nf_calories.getD 0)).sum
        protein := t.protein + (foods.map (fun f => f.nf_protein.getD 0)).sum
        carbs := t.carbs + (foods.map (fun f => f.nf_total_carbohydrate.getD 0)).sum
        fat := t.fat + (foods.map (fun f => f.nf_total_fat.getD 0)).sum
        fiber := t.fiber + (foods.map (fun f => f.nf_dietary_fiber.getD 0)).sum
        sodium := t.sodium + (foods.map (fun f => f.nf_sodium.getD 0)).sum
        sugar := t.sugar + (foods.map (fun f => f.nf_sugars.getD 0)).sum } := by
  induction foods with
  | nil => intro t; simp
  | cons f fs ih =>
    intro t
    rw [List.foldl_cons, ih (addFood t f)]
    simp only [addFood, List.map_cons, List.sum_cons, MealTotals.mk.injEq]
    refine ⟨?_, ?_, ?_, ?_, ?_, ?_, ?_⟩ <;> ring

/-- The totals dict equals the componentwise sums over the foods. -/
theorem mealTotals_eq_sums (foods : List NtrFood) :
    mealTotals foods =
      { calories := (foods.map (fun f => f.nf_calories.getD 0)).sum
        protein := (foods.map (fun f => f.nf_protein.getD 0)).sum
        carbs := (foods.map (fun f => f.nf_total_carbohydrate.getD 0)).sum
        fat := (foods.map (fun f => f.nf_total_fat.getD 0)).sum
        fiber := (foods.map (fun f => f.nf_dietary_fiber.getD 0)).sum
        sodium := (foods.map (fun f => f.nf_sodium.getD 0)).sum
        sugar := (foods.map (fun f => f.nf_sugars.getD 0)).sum } := by
  rw [mealTotals, foldl_addFood_eq]
  simp [emptyTotals]

/-- C4: for every provider response with at least one food, the
macronutrient distribution of analyze_meal equals the rounded
percent-of-calories formulas (protein and carbs at 4 kcal/g, fat at
9 kcal/g over the summed calories) when total calories are positive,
and is the empty mapping when total calories are zero. -/
theorem analyze_meal_macro_distribution (foods_list : List String)
    (meal_name : String) (oracle : NtrOracle) (st : ℕ) (foods : List NtrFood)
    (hresp : oracle (String.intercalate ", " foods_list) = some (st, foods))
    (hne : foods ≠ []) (hst : is2xx st = true) :
    ∃ a, (analyze_meal foods_list meal_name oracle).2 = .ok a ∧
      (0 < (foods.map (fun f => f.nf_calories.getD 0)).sum →
        a.macronutrient_distribution = some
          { protein_percent := pyRound ((foods.map (fun f => f.nf_protein.getD 0)).sum * 4 /
              (foods.map (fun f => f.nf_calories.getD 0)).sum * 100) 1
            carbs_percent := pyRound ((foods.map (fun f => f.nf_total_carbohydrate.getD 0)).sum * 4 /
              (foods.map (fun f => f.nf_calories.getD 0)).sum * 100) 1
            fat_percent := pyRound ((foods.map (fun f => f.nf_total_fat.getD 0)).sum * 9 /
              (foods.map (fun f => f.nf_calories.getD 0)).sum * 100) 1 })
      ∧ ((foods.map (fun f => f.nf_calories.getD 0)).sum = 0 →
        a.macronutrient_distribution = none) := by
  rcases foods with _ | ⟨f0, rest⟩
  · exact absurd rfl hne
  · refine ⟨mealAnalysisOfFoods meal_name (f0 :: rest), ?_, ?_, ?_⟩
    · simp [analyze_meal, hresp, hst]
    · intro hpos
      simp only [mealAnalysisOfFoods, macroPercentagesOf, mealTotals_eq_sums]
      rw [if_pos hpos]
    · intro hzero
      simp only [mealAnalysisOfFoods, macroPercentagesOf, mealTotals_eq_sums]
      rw [if_neg (by rw [hzero]; exact lt_irrefl 0)]

/-- Witness oracle for analyze_meal: one 200 response with two foods. -/
def wOracleMeal : NtrOracle := fun _ => some (200, [wFoodApple, wFoodBanana])

/-- C4 witness: the theorem applied to a concrete two-food meal. -/
theorem analyze_meal_macro_distribution_witness :
    (0 : ℚ) < ([wFoodApple, wFoodBanana].map (fun f => f.nf_calories.getD 0)).sum ∧
    ∃ a, (analyze_meal ["apple", "banana"] "Custom Meal" wOracleMeal).2 = .ok a ∧
      (0 < ([wFoodApple, wFoodBanana].map (fun f => f.nf_calories.getD 0)).sum →
        a.macronutrient_distribution = some
          { protein_percent := pyRound (([wFoodApple, wFoodBanana].map (fun f => f.nf_protein.getD 0)).sum * 4 /
              ([wFoodApple, wFoodBanana].map (fun f => f.nf_calories.getD 0)).sum * 100) 1
            carbs_percent := pyRound (([wFoodApple, wFoodBanana].map (fun f => f.nf_total_carbohydrate.getD 0)).sum * 4 /
              ([wFoodApple, wFoodBanana].map (fun f => f.nf_calories.getD 0)).sum * 100) 1
            fat_percent := pyRound (([wFoodApple, wFoodBanana].map (fun f => f.nf_total_fat.getD 0)).sum * 9 /
              ([wFoodApple, wFoodBanana].map (fun f => f.nf_calories.getD 0)).sum * 100) 1 })
      ∧ (([wFoodApple, wFoodBanana].map (fun f => f.nf_calories.getD 0)).sum = 0 →
        a.macronutrient_distribution = none) :=
  ⟨by norm_num [wFoodApple, wFoodBanana],
   analyze_meal_macro_distribution ["apple", "banana"] "Custom Meal" wOracleMeal
     200 [wFoodApple, wFoodBanana] rfl (by simp) rfl⟩

/-- Results carried by an oracle response, empty when absent. -/
def respResults : Option (ℕ × List WgerExercise) → List WgerExercise
  | none => []
  | some (_, rs) => rs

/-- When every per-ID call of the loop answers 2xx, the loop issues one
request per ID in order and returns the concatenation of the shaped
per-ID results. -/
theorem fetchMuscleLoop_all_ok (oracle : WgerOracle) (pl : ℤ) :
    ∀ ids : List ℤ,
      (∀ id ∈ ids, ∃ st results,
        oracle (muscleReq id pl) = some (st, results) ∧ is2xx st = true) →
      fetchMuscleLoop oracle pl ids =
        (ids.map (fun id => muscleReq id pl),
         .ok ((ids.map (fun id =>
            (respResults (oracle (muscleReq id pl))).map exerciseInfoOf)).flatten)) := by
  intro ids
  induction ids with
  | nil => intro _; simp [fetchMuscleLoop]
  | cons id rest ih =>
    intro h
    obtain ⟨st, results, heq, h2⟩ := h id (List.mem_cons_self _ _)
    have hrest := ih (fun i hi => h i (List.mem_cons_of_mem _ hi))
    simp [fetchMuscleLoop, heq, h2, hrest, respResults]

/-- The loop trace is always a prefix of the per-ID request list. -/
theorem fetchMuscleLoop_trace_prefix (oracle : WgerOracle) (pl : ℤ) :
    ∀ ids : List ℤ, ∃ n,
      (fetchMuscleLoop oracle pl ids).1 =
        (ids.take n).map (fun id => muscleReq id pl) := by
  intro ids
  induction ids with
  | nil => exact ⟨0, rfl⟩
  | cons id rest ih =>
    rcases h : oracle (muscleReq id pl) with _ | ⟨st, results⟩
    · exact ⟨1, by simp [fetchMuscleLoop, h]⟩
    · by_cases h2 : is2xx st = true
      · obtain ⟨n, hn⟩ := ih
        refine ⟨n + 1, ?_⟩
        have step : (fetchMuscleLoop oracle pl (id :: rest)).1 =
            muscleReq id pl :: (fetchMuscleLoop oracle pl rest).1 := by
          simp only [fetchMuscleLoop, h, h2, if_true]
          rcases hf : fetchMuscleLoop oracle pl rest with ⟨tr, out⟩
          cases out <;> rfl
        rw [step, hn, List.take_succ_cons, List.map_cons]
      · exact ⟨1, by simp [fetchMuscleLoop, h, h2]⟩

/-- The final slice keeps at most a nonnegative limit of records. -/
theorem pySliceTo_length_le {α : Type} (xs : List α) (n : ℤ) (hn : 0 ≤ n) :
    (pySliceTo xs n).length ≤ n.toNat := by
  simp only [pySliceTo, if_pos hn, List.length_take]
  exact min_le_left _ _

/-- A successful get_exercises_by_muscle outcome is the sliced list, so
it never exceeds a nonnegative limit. -/
theorem gEBM_ok_length_le (g : String) (limit : ℤ) (oracle : WgerOracle)
    (mg : String) (total : ℕ) (res : List ExerciseInfo) (hl : 0 ≤ limit)
    (h : (get_exercises_by_muscle g limit oracle).2 = .ok mg total res) :
    res.length ≤ limit.toNat := by
  by_cases he : ((lookupStr (pyLower g) muscle_mapping).getD []).isEmpty
  · simp [get_exercises_by_muscle, he] at h
  · rw [get_exercises_by_muscle] at h
    simp only [he, Bool.false_eq_true, if_false] at h
    rcases hf : fetchMuscleLoop oracle
        (limit.fdiv (((lookupStr (pyLower g) muscle_mapping).getD []).length : ℤ))
        ((lookupStr (pyLower g) muscle_mapping).getD []) with ⟨tr, out⟩
    rw [hf] at h
    rcases out with e | xs
    · cases e <;> simp at h
    · obtain ⟨-, -, h3⟩ := MuscleOutcome.ok.inj h
      rw [← h3]
      exact pySliceTo_length_le xs limit hl

/-- For a known muscle group the tool trace is the loop trace. -/
theorem gEBM_trace_eq (g : String) (limit : ℤ) (oracle : WgerOracle)
    (ids : List ℤ) (h : lookupStr (pyLower g) muscle_mapping = some ids)
    (hne : ids.isEmpty = false) :
    (get_exercises_by_muscle g limit oracle).1 =
      (fetchMuscleLoop oracle (limit.fdiv (ids.length : ℤ)) ids).1 := by
  simp only [get_exercises_by_muscle, h, Option.getD_some, hne,
    Bool.false_eq_true, if_false]
  rcases hf : fetchMuscleLoop oracle (limit.fdiv (ids.length : ℤ)) ids with ⟨tr, out⟩
  rcases out with e | xs
  · cases e <;> rfl
  · rfl

/-- The loop applied to one ID issues exactly that one request. -/
theorem fetchMuscleLoop_single (oracle : WgerOracle) (pl id : ℤ) :
    (fetchMuscleLoop oracle pl [id]).1 = [muscleReq id pl] := by
  rcases h : oracle (muscleReq id pl) with _ | ⟨st, results⟩
  · simp [fetchMuscleLoop, h]
  · by_cases h2 : is2xx st = true <;> simp [fetchMuscleLoop, h, h2]

/-- C5: get_exercises_by_muscle("chest", 15) issues exactly one request,
for muscle ID 4, and a successful outcome holds at most 15 records; an
unknown group (case-insensitively) issues no request and returns the
invalid-group error naming exactly the seven table keys; for every known
group each per-ID request asks for limit fdiv (number of IDs) results
with language 2, and when every per-ID call succeeds the outcome is the
concatenation of the shaped per-ID results truncated to limit. -/
theorem get_exercises_by_muscle_spec :
    (∀ oracle : WgerOracle,
      (get_exercises_by_muscle "chest" 15 oracle).1 =
        [{ muscles := 4, limit := 15, language := 2 }])
  ∧ (∀ (oracle : WgerOracle) (mg : String) (total : ℕ) (res : List ExerciseInfo),
      (get_exercises_by_muscle "chest" 15 oracle).2 = .ok mg total res →
      res.length ≤ 15)
  ∧ (∀ (g : String) (limit : ℤ) (oracle : WgerOracle),
      lookupStr (pyLower g) muscle_mapping = none →
      get_exercises_by_muscle g limit oracle =
        ([], .invalidGroup
          "Invalid muscle group. Available groups: chest, back, shoulders, arms, legs, abs, core"))
  ∧ (∀ (g : String) (ids : List ℤ) (limit : ℤ) (oracle : WgerOracle),
      lookupStr (pyLower g) muscle_mapping = some ids →
      ∀ r ∈ (get_exercises_by_muscle g limit oracle).1,
        r.limit = limit.fdiv (ids.length : ℤ) ∧ r.language = 2)
  ∧ (∀ (g : String) (ids : List ℤ) (limit : ℤ) (oracle : WgerOracle),
      lookupStr (pyLower g) muscle_mapping = some ids →
      ids.isEmpty = false →
      (∀ id ∈ ids, ∃ st results,
        oracle (muscleReq id (limit.fdiv (ids.length : ℤ))) = some (st, results) ∧
        is2xx st = true) →
      (get_exercises_by_muscle g limit oracle).2 =
        .ok g
          ((ids.map (fun id =>
            (respResults (oracle (muscleReq id (limit.fdiv (ids.length : ℤ))))).map
              exerciseInfoOf)).flatten).length
          (pySliceTo
            ((ids.map (fun id =>
              (respResults (oracle (muscleReq id (limit.fdiv (ids.length : ℤ))))).map
                exerciseInfoOf)).flatten)
            limit)) := by
  refine ⟨?_, ?_, ?_, ?_, ?_⟩
  · intro oracle
    rw [gEBM_trace_eq "chest" 15 oracle [4] rfl rfl]
    exact fetchMuscleLoop_single oracle _ 4
  · intro oracle mg total res h
    exact gEBM_ok_length_le "chest" 15 oracle mg total res (by norm_num) h
  · intro g limit oracle h
    unfold get_exercises_by_muscle
    rw [h]
    rfl
  · intro g ids limit oracle h r hr
    rcases hie : ids.isEmpty with _ | _
    · rw [gEBM_trace_eq g limit oracle ids h hie] at hr
      obtain ⟨n, hn⟩ := fetchMuscleLoop_trace_prefix oracle (limit.fdiv (ids.length : ℤ)) ids
      rw [hn] at hr
      obtain ⟨id, -, rfl⟩ := List.mem_map.mp hr
      exact ⟨rfl, rfl⟩
    · rw [List.isEmpty_iff] at hie
      subst hie
      simp [get_exercises_by_muscle, h] at hr
  · intro g ids limit oracle h hne hok
    simp only [get_exercises_by_muscle, h, Option.getD_some, hne,
      Bool.false_eq_true, if_false]
    rw [fetchMuscleLoop_all_ok oracle (limit.fdiv (ids.length : ℤ)) ids hok]

/-- Witness exercise record. -/
def wExercise : WgerExercise :=
  { id := some 1, name := some "Bench Press"
    description := some "<p>Lie on a bench</p>"
    muscles := [4], muscles_secondary := [], equipment := [2] }

/-- Witness oracle answering every exercise list call with status 200. -/
def wOracle200 : WgerOracle := fun _ => some (200, [wExercise])

/-- C5 witness: the theorem applied to concrete oracles and groups. -/
theorem get_exercises_by_muscle_spec_witness :
    (get_exercises_by_muscle "chest" 15 wOracle200).1 =
      [{ muscles := 4, limit := 15, language := 2 }]
  ∧ ([exerciseInfoOf wExercise] : List ExerciseInfo).length ≤ 15
  ∧ get_exercises_by_muscle "bogus" 15 wOracle200 =
      ([], .invalidGroup
        "Invalid muscle group. Available groups: chest, back, shoulders, arms, legs, abs, core")
  ∧ ((muscleReq 12 ((15 : ℤ).fdiv 2)).limit = (15 : ℤ).fdiv (([12, 13] : List ℤ).length : ℤ) ∧
      (muscleReq 12 ((15 : ℤ).fdiv 2)).language = 2)
  ∧ (get_exercises_by_muscle "back" 15 wOracle200).2 =
      .ok "back"
        ((([12, 13] : List ℤ).map (fun id =>
          (respResults (wOracle200 (muscleReq id ((15 : ℤ).fdiv (([12, 13] : List ℤ).length : ℤ))))).map
            exerciseInfoOf)).flatten).length
        (pySliceTo
          ((([12, 13] : List ℤ).map (fun id =>
            (respResults (wOracle200 (muscleReq id ((15 : ℤ).fdiv (([12, 13] : List ℤ).length : ℤ))))).map
              exerciseInfoOf)).flatten)
          15) := by
  refine ⟨get_exercises_by_muscle_spec.1 wOracle200,
    get_exercises_by_muscle_spec.2.1 wOracle200 "chest" 1 [exerciseInfoOf wExercise] rfl,
    get_exercises_by_muscle_spec.2.2.1 "bogus" 15 wOracle200 rfl,
    get_exercises_by_muscle_spec.2.2.2.1 "back" [12, 13] 15 wOracle200 rfl
      (muscleReq 12 ((15 : ℤ).fdiv 2)) (by decide),
    get_exercises_by_muscle_spec.2.2.2.2 "back" [12, 13] 15 wOracle200 rfl rfl
      (fun id _ => ⟨200, [wExercise], rfl, rfl⟩)⟩

/-- Once the first response has arrived, compare_foods always issues the
second request, whatever the first status was. -/
theorem compare_foods_trace_after_first_response (f1 f2 : String) (q : ℚ)
    (u : String) (oracle : NtrOracle) (st1 : ℕ) (b1 : List NtrFood)
    (h1 : oracle (nutrientQuery f1 q u) = some (st1, b1)) :
    (compare_foods f1 f2 q u oracle).1 =
      [nutrientQuery f1 q u, nutrientQuery f2 q u] := by
  rcases h2 : oracle (nutrientQuery f2 q u) with _ | ⟨st2, b2⟩
  · simp [compare_foods, h1, h2]
  · simp only [compare_foods, h1, h2]
    split
    · split
      · cases b1 <;> cases b2 <;> rfl
      · rfl
    · rfl

/-- C6 (counterexample): the claim asserts that for compare_foods a
failed first nutrient lookup prevents the second request.  With a first
response of status 500 the code still issues the second POST, because
both requests are awaited before either raise_for_status call; the tool
then reports the API error of the first response. -/
def cOracle500 : NtrOracle := fun q =>
  if q = "apple" then some (500, []) else some (200, [wFoodBanana])

/-- C6 counterexample theorem: concrete run where the first lookup fails
with status 500 and the second request is nevertheless issued. -/
theorem compare_foods_second_request_sent_after_failure :
    (compare_foods "apple" "banana" 1 "serving" cOracle500).1 = ["apple", "banana"]
  ∧ (compare_foods "apple" "banana" 1 "serving" cOracle500).2 = .apiError 500 := by
  have hq1 : nutrientQuery "apple" 1 "serving" = "apple" := by simp [nutrientQuery]
  have hq2 : nutrientQuery "banana" 1 "serving" = "banana" := by simp [nutrientQuery]
  have h1 : cOracle500 "apple" = some (500, []) := by simp [cOracle500]
  have h2 : cOracle500 "banana" = some (200, [wFoodBanana]) := by simp [cOracle500]
  constructor
  · rw [compare_foods_trace_after_first_response "apple" "banana" 1 "serving"
      cOracle500 500 [] (by rw [hq1, h1]), hq1, hq2]
  · norm_num [compare_foods, hq1, hq2, h1, h2, is2xx]

/-- C6 (amended): multi-call flows issue their upstream calls one at a
time in a fixed order; a transport-level failure of the first
compare_foods lookup prevents the second request, but a non-2xx first
response does not (both requests precede the status checks); in the
per-ID loop of get_exercises_by_muscle any failure, transport or
non-2xx, prevents every later per-ID request. -/
theorem sequential_upstream_calls :
    (∀ (f1 f2 : String) (q : ℚ) (u : String) (oracle : NtrOracle),
      (compare_foods f1 f2 q u oracle).1 = [nutrientQuery f1 q u] ∨
      (compare_foods f1 f2 q u oracle).1 =
        [nutrientQuery f1 q u, nutrientQuery f2 q u])
  ∧ (∀ (f1 f2 : String) (q : ℚ) (u : String) (oracle : NtrOracle),
      oracle (nutrientQuery f1 q u) = none →
      (compare_foods f1 f2 q u oracle).1 = [nutrientQuery f1 q u])
  ∧ (∀ (f1 f2 : String) (q : ℚ) (u : String) (oracle : NtrOracle) (st1 : ℕ)
      (b1 : List NtrFood), oracle (nutrientQuery f1 q u) = some (st1, b1) →
      (compare_foods f1 f2 q u oracle).1 =
        [nutrientQuery f1 q u, nutrientQuery f2 q u])
  ∧ (∀ (oracle : WgerOracle) (pl id : ℤ) (rest : List ℤ),
      oracle (muscleReq id pl) = none →
      fetchMuscleLoop oracle pl (id :: rest) =
        ([muscleReq id pl], .error .transport))
  ∧ (∀ (oracle : WgerOracle) (pl id : ℤ) (rest : List ℤ) (st : ℕ)
      (results : List WgerExercise),
      oracle (muscleReq id pl) = some (st, results) → is2xx st = false →
      fetchMuscleLoop oracle pl (id :: rest) =
        ([muscleReq id pl], .error (.status st))) := by
  refine ⟨?_, ?_, ?_, ?_, ?_⟩
  · intro f1 f2 q u oracle
    rcases h1 : oracle (nutrientQuery f1 q u) with _ | ⟨st1, b1⟩
    · exact Or.inl (by simp [compare_foods, h1])
    · exact Or.inr (compare_foods_trace_after_first_response f1 f2 q u oracle st1 b1 h1)
  · intro f1 f2 q u oracle h1
    simp [compare_foods, h1]
  · exact fun f1 f2 q u oracle st1 b1 h1 =>
      compare_foods_trace_after_first_response f1 f2 q u oracle st1 b1 h1
  · intro oracle pl id rest h
    simp [fetchMuscleLoop, h]
  · intro oracle pl id rest st results h h2
    simp [fetchMuscleLoop, h, h2]

/-- C6 witness: the amended theorem applied to concrete oracles. -/
theorem sequential_upstream_calls_witness :
    ((compare_foods "apple" "banana" 1 "serving" wOracleBoth).1 = [nutrientQuery "apple" 1 "serving"] ∨
     (compare_foods "apple" "banana" 1 "serving" wOracleBoth).1 =
       [nutrientQuery "apple" 1 "serving", nutrientQuery "banana" 1 "serving"])
  ∧ (compare_foods "apple" "banana" 1 "serving" (fun _ => none)).1 =
      [nutrientQuery "apple" 1 "serving"]
  ∧ (compare_foods "apple" "banana" 1 "serving" cOracle500).1 =
      [nutrientQuery "apple" 1 "serving", nutrientQuery "banana" 1 "serving"]
  ∧ fetchMuscleLoop (fun _ => none) 7 [12, 13] =
      ([muscleReq 12 7], .error .transport)
  ∧ fetchMuscleLoop (fun _ => some (500, [])) 7 [12, 13] =
      ([muscleReq 12 7], .error (.status 500)) :=
  ⟨sequential_upstream_calls.1 "apple" "banana" 1 "serving" wOracleBoth,
   sequential_upstream_calls.2.1 "apple" "banana" 1 "serving" (fun _ => none) rfl,
   sequential_upstream_calls.2.2.1 "apple" "banana" 1 "serving" cOracle500 500 []
     (by simp [cOracle500, nutrientQuery]),
   sequential_upstream_calls.2.2.2.1 (fun _ => none) 7 12 [13] rfl,
   sequential_upstream_calls.2.2.2.2 (fun _ => some (500, [])) 7 12 [13] 500 [] rfl rfl⟩

/-- C7: when the exercise-fetch block of create_fitness_plan raises,
every partial per-muscle-group result is discarded, the static fallback
holding exactly one fixed bodyweight exercise per muscle group is
substituted, and a complete fitness-plan document is still returned; the
exception never propagates. -/
theorem fitness_plan_fallback_on_exception (age : ℤ) (gender : String)
    (weight_kg height_cm : ℚ) (goal activity_level : String)
    (workout_days : ℤ) (equipment : String) (oracle : WgerOracle)
    (h : fetchPlanExercises oracle plan_muscle_groups = .error ()) :
    fallback_workout_structure =
      [("chest", [{ name := some "Push-ups", description := "Classic bodyweight chest exercise" }]),
       ("back", [{ name := some "Pull-ups", description := "Upper body pulling exercise" }]),
       ("legs", [{ name := some "Squats", description := "Fundamental lower body exercise" }]),
       ("shoulders", [{ name := some "Pike Push-ups", description := "Bodyweight shoulder exercise" }]),
       ("arms", [{ name := some "Tricep Dips", description := "Bodyweight arm exercise" }])]
  ∧ ∃ p, create_fitness_plan age gender weight_kg height_cm goal activity_level
        workout_days equipment oracle = .ok p ∧
      p.weekly_split = weeklySplit workout_days fallback_workout_structure := by
  refine ⟨rfl, ?_⟩
  refine ⟨_, rfl, ?_⟩
  show weeklySplit workout_days
      (match fetchPlanExercises oracle plan_muscle_groups with
        | .ok s => s
        | .error _ => fallback_workout_structure) =
    weeklySplit workout_days fallback_workout_structure
  rw [h]

/-- Oracle that fails every request at the transport level. -/
def wOracleNone : WgerOracle := fun _ => none

/-- C7 witness: the theorem applied to the always-failing oracle. -/
theorem fitness_plan_fallback_witness :
    fallback_workout_structure =
      [("chest", [{ name := some "Push-ups", description := "Classic bodyweight chest exercise" }]),
       ("back", [{ name := some "Pull-ups", description := "Upper body pulling exercise" }]),
       ("legs", [{ name := some "Squats", description := "Fundamental lower body exercise" }]),
       ("shoulders", [{ name := some "Pike Push-ups", description := "Bodyweight shoulder exercise" }]),
       ("arms", [{ name := some "Tricep Dips", description := "Bodyweight arm exercise" }])]
  ∧ ∃ p, create_fitness_plan 30 "male" 70 175 "maintain" "moderate" 4 "gym"
        wOracleNone = .ok p ∧
      p.weekly_split = weeklySplit 4 fallback_workout_structure :=
  fitness_plan_fallback_on_exception 30 "male" 70 175 "maintain" "moderate" 4 "gym"
    wOracleNone rfl

/-- C9 (counterexample): the claim asserts that initialization succeeds
whenever both credential settings are present; a credential set to the
empty string is present yet falsy in Python, so the module still raises. -/
theorem credentials_empty_string_counterexample :
    (some "" : Option String).isSome = true
  ∧ (some "key" : Option String).isSome = true
  ∧ init_nutritionix_credentials (some "") (some "key") = .error missingCredentialsMsg
  ∧ start_server (some "") (some "key") = .error missingCredentialsMsg :=
  ⟨rfl, rfl, rfl, rfl⟩

/-- C9 (amended): if either credential is absent or set to the empty
string, startup raises the missing-credentials error and no tool is
served; when both are present and non-empty, initialization succeeds and
every tool is registered. -/
theorem credentials_fail_fast (app_id app_key : Option String) :
    ((app_id = none ∨ app_id = some "" ∨ app_key = none ∨ app_key = some "") →
      start_server app_id app_key = .error missingCredentialsMsg)
  ∧ (∀ i k, app_id = some i → i ≠ "" → app_key = some k → k ≠ "" →
      start_server app_id app_key = .ok server_tool_names) := by
  constructor
  · rintro (rfl | rfl | rfl | rfl) <;>
      simp [start_server, init_nutritionix_credentials, pyTruthyStr]
  · rintro i k rfl hi rfl hk
    simp [start_server, init_nutritionix_credentials, pyTruthyStr, hi, hk]

/-- C9 witness: the amended theorem applied to concrete settings. -/
theorem credentials_fail_fast_witness :
    start_server none (some "key") = .error missingCredentialsMsg
  ∧ start_server (some "id") (some "key") = .ok server_tool_names :=
  ⟨(credentials_fail_fast none (some "key")).1 (Or.inl rfl),
   (credentials_fail_fast (some "id") (some "key")).2 "id" "key" rfl
     (by decide) rfl (by decide)⟩

/-- When no request raises at the transport level, the plan fetch block
never errors. -/
theorem fetchPlanExercises_total_ok (oracle : WgerOracle)
    (htotal : ∀ r, (oracle r).isSome = true) :
    ∀ ms : List String, ∃ s, fetchPlanExercises oracle ms = .ok s := by
  intro ms
  induction ms with
  | nil => exact ⟨[], rfl⟩
  | cons m rest ih =>
    obtain ⟨s, hs⟩ := ih
    rcases hl : (lookupStr m plan_muscle_ids).getD [] with _ | ⟨id, ids⟩
    · exact ⟨s, by simp [fetchPlanExercises, hl, hs]⟩
    · rcases ho : oracle { muscles := id, limit := 3, language := 2 } with _ | ⟨st, results⟩
      · exact absurd (htotal { muscles := id, limit := 3, language := 2 }) (by simp [ho])
      · exact ⟨if st = 200 then (m, (results.take 3).map planExerciseOf) :: s else s,
          by simp [fetchPlanExercises, hl, ho, hs]⟩

/-- A muscle group absent from the iterated list never appears among
the keys of a successful fetch-block result. -/
theorem fetchPlanExercises_lookup_none (oracle : WgerOracle) (m : String) :
    ∀ (ms : List String) (s : List (String × List PlanExercise)),
      m ∉ ms → fetchPlanExercises oracle ms = .ok s → lookupStr m s = none := by
  intro ms
  induction ms with
  | nil =>
    intro s _ h
    obtain rfl := (Except.ok.inj h).symm
    rfl
  | cons m' rest ih =>
    intro s hmem h
    have hm' : ¬ (m' = m) := fun e => hmem (e ▸ List.mem_cons_self _ _)
    have hrest : m ∉ rest := fun hr => hmem (List.mem_cons_of_mem _ hr)
    rcases hl : (lookupStr m' plan_muscle_ids).getD [] with _ | ⟨id, ids⟩
    · rw [fetchPlanExercises, hl] at h
      exact ih s hrest h
    · rw [fetchPlanExercises, hl] at h
      dsimp only at h
      rcases ho : oracle { muscles := id, limit := 3, language := 2 } with _ | ⟨st, results⟩
      · rw [ho] at h; exact absurd h (by simp)
      · rw [ho] at h
        rcases hr : fetchPlanExercises oracle rest with e | s'
        · rw [hr] at h; exact absurd h (by simp)
        · rw [hr] at h
          obtain rfl := (Except.ok.inj h).symm
          by_cases hst : st = 200
          · simp only [hst, if_true, lookupStr, hm', if_false]
            exact ih s' hrest hr
          · simp only [hst, if_false]
            exact ih s' hrest hr

/-- C10: inside the exercise-fetch block of create_fitness_plan a
non-2xx response for one muscle group raises nothing and triggers
neither the fallback nor an error: the block still succeeds, that group
is absent from the workout structure, the tool returns a success
document, and on a four-day split day 1 holds only the two sliced arm
exercises (no chest exercises). -/
theorem fitness_plan_skips_non2xx_muscle (age : ℤ) (gender : String)
    (weight_kg height_cm : ℚ) (goal activity_level : String)
    (workout_days : ℤ) (equipment : String) (oracle : WgerOracle)
    (htotal : ∀ r, (oracle r).isSome = true) (st : ℕ)
    (results : List WgerExercise)
    (hchest : oracle { muscles := 4, limit := 3, language := 2 } = some (st, results))
    (hst : ¬ (200 ≤ st ∧ st < 300)) :
    ∃ s, fetchPlanExercises oracle plan_muscle_groups = .ok s
      ∧ lookupStr "chest" s = none
      ∧ (∃ p, create_fitness_plan age gender weight_kg height_cm goal
            activity_level workout_days equipment oracle = .ok p
          ∧ p.weekly_split = weeklySplit workout_days s)
      ∧ (4 ≤ workout_days →
          (lookupStr "day_1" (weeklySplit workout_days s)).map SplitDay.exercises =
            some (((lookupStr "arms" s).getD []).take 2)) := by
  have hs200 : ¬ (st = 200) := fun e => hst (by rw [e]; exact ⟨le_refl 200, by norm_num⟩)
  obtain ⟨s', hs'⟩ := fetchPlanExercises_total_ok oracle htotal
    ["back", "legs", "shoulders", "arms"]
  have hfetch : fetchPlanExercises oracle plan_muscle_groups = .ok s' := by
    have step : fetchPlanExercises oracle plan_muscle_groups =
        match oracle { muscles := 4, limit := 3, language := 2 } with
        | none => .error ()
        | some (st, results) =>
          match fetchPlanExercises oracle ["back", "legs", "shoulders", "arms"] with
          | .error e => .error e
          | .ok s =>
            .ok (if st = 200 then
              ("chest", (results.take 3).map planExerciseOf) :: s else s) := rfl
    rw [step, hchest, hs']
    simp [hs200]
  have hnone : lookupStr "chest" s' = none :=
    fetchPlanExercises_lookup_none oracle "chest"
      ["back", "legs", "shoulders", "arms"] s' (by decide) hs'
  refine ⟨s', hfetch, hnone, ⟨_, rfl, ?_⟩, ?_⟩
  · show weeklySplit workout_days
        (match fetchPlanExercises oracle plan_muscle_groups with
          | .ok s => s
          | .error _ => fallback_workout_structure) =
      weeklySplit workout_days s'
    rw [hfetch]
  · intro h4
    simp [weeklySplit, if_pos h4, lookupStr, hnone]

/-- Oracle answering the chest request with 404 and everything else 200. -/
def wOracle404Chest : WgerOracle := fun r =>
  if r.muscles = 4 then some (404, []) else some (200, [wExercise])

/-- C10 witness: the theorem applied to the concrete 404-on-chest
oracle. -/
theorem fitness_plan_skips_non2xx_muscle_witness :
    ∃ s, fetchPlanExercises wOracle404Chest plan_muscle_groups = .ok s
      ∧ lookupStr "chest" s = none
      ∧ (∃ p, create_fitness_plan 30 "female" 60 165 "lose_weight"
            "moderate" 4 "gym" wOracle404Chest = .ok p
          ∧ p.weekly_split = weeklySplit 4 s)
      ∧ ((4 : ℤ) ≤ 4 →
          (lookupStr "day_1" (weeklySplit 4 s)).map SplitDay.exercises =
            some (((lookupStr "arms" s).getD []).take 2)) :=
  fitness_plan_skips_non2xx_muscle 30 "female" 60 165 "lose_weight" "moderate"
    4 "gym" wOracle404Chest
    (fun r => by by_cases h : r.muscles = 4 <;> simp [wOracle404Chest, h])
    404 [] rfl (by norm_num)

end FitnessServer
